import Mathlib

/-!
# Verification of the sapio example contracts and payment boundary

Shallow embedding of `sapio/examples/smarter_vault.py`,
`sapio/examples/subscription.py`, `sapio/examples/undo_send.py` and
`sapio_server/network/json/payments.py`.

The core compiler types (`TransactionTemplate`, the `TimeSpec` hierarchy,
`Amount`) live outside the given sources; they are modelled from the spec
where noted.  `Amount` arithmetic is exact Python integer arithmetic, so it
is modelled as `Int`; the spec declares bound `Amount` field values to be
non-negative integers, which appears as an explicit hypothesis wherever a
claim depends on it.
-/

/-- Modelled from the spec: `Amount` (bitcoinlib `static_types`, not among the
given sources) is an integer quantity of the smallest currency unit with
exact integer arithmetic. -/
abbrev Amount := Int

/-- Modelled from the spec: an opaque public key (bitcoinlib `static_types`). -/
abbrev PubKey := Nat

/-- Modelled from the spec: an absolute (height or calendar time) lock value,
carrying its raw `time` payload. -/
structure AbsoluteTimeSpec where
  time : Int
deriving DecidableEq, Repr

/-- Modelled from the spec: a relative (delta from confirmation) lock value,
carrying its raw `time` payload. -/
structure RelativeTimeSpec where
  time : Int
deriving DecidableEq, Repr

/-- Modelled from the spec: `AbsoluteTimeSpec.at_height` builds an absolute
height-based lock at the given height. -/
def AbsoluteTimeSpec.at_height (h : Int) : AbsoluteTimeSpec := ⟨h⟩

/-- Modelled from the spec: `TimeSpec` is tagged as Absolute or Relative. -/
inductive TimeSpec where
  | absolute (t : AbsoluteTimeSpec)
  | relative (t : RelativeTimeSpec)

/-- The `.time` payload of either kind of time spec (both Python classes
expose a `time` attribute). -/
def TimeSpec.time : TimeSpec → Int
  | .absolute t => t.time
  | .relative t => t.time

/-- The contracts appearing in the given sources, each constructor carrying
the bound values of its `Fields` class in declaration order.  `base`
stands for an externally supplied contract/address (e.g. a
`PayToSegwitAddress` recipient or the result of a cold-storage callable). -/
inductive Contract where
  | base (id : Nat)
  | undoSend (from_contract : Contract) (to_key : Contract)
      (amount : Amount) (timeout : TimeSpec)
  | smarterVault (cold_storage : Amount → Contract) (hot_storage : Contract)
      (n_steps : Int) (amount_step : Amount) (timeout : TimeSpec) (mature : TimeSpec)
  | cancellableSubscription (amount : Amount) (recipient : Contract)
      (schedule : List (AbsoluteTimeSpec × Amount)) (return_address : Contract)
      (watchtower_key : PubKey) (return_timeout : RelativeTimeSpec)
  | cancelContest (amount : Amount) (recipient : Contract)
      (schedule : List (AbsoluteTimeSpec × Amount)) (return_address : Contract)
      (watchtower_key : PubKey) (return_timeout : RelativeTimeSpec)

/-- Modelled from the spec: a draft transaction — an ordered sequence of
`(amount, target)` outputs plus an optional relative lock (`sequence`) and
optional absolute lock (`locktime`). -/
structure TransactionTemplate where
  outputs : List (Amount × Contract)
  sequence : Option Int
  locktime : Option Int

/-- A fresh, empty transaction template (`TransactionTemplate()`). -/
def TransactionTemplate.empty : TransactionTemplate :=
  { outputs := [], sequence := none, locktime := none }

/-- Modelled from the spec: `add_output(amount, target)` appends in order. -/
def TransactionTemplate.add_output (tx : TransactionTemplate)
    (amount : Amount) (target : Contract) : TransactionTemplate :=
  { tx with outputs := tx.outputs ++ [(amount, target)] }

/-- Modelled from the spec: `set_sequence(value)` records the relative lock. -/
def TransactionTemplate.set_sequence (tx : TransactionTemplate) (v : Int) :
    TransactionTemplate :=
  { tx with sequence := some v }

/-- Modelled from the spec: `set_locktime(value)` records the absolute lock. -/
def TransactionTemplate.set_locktime (tx : TransactionTemplate) (v : Int) :
    TransactionTemplate :=
  { tx with locktime := some v }

/-- Sum of the output amounts of a template. -/
def TransactionTemplate.outputTotal (tx : TransactionTemplate) : Amount :=
  (tx.outputs.map Prod.fst).sum

/-- `add_timeout` from `subscription.py`: a relative delay is applied via
`set_sequence`, an absolute delay via `set_locktime`. -/
def add_timeout (tx : TransactionTemplate) (delay : TimeSpec) :
    TransactionTemplate :=
  match delay with
  | .relative t => tx.set_sequence t.time
  | .absolute t => tx.set_locktime t.time

/-- `SmarterVault.step` from `smarter_vault.py`: sequence from `timeout`,
one `UndoSend`-guarded output of `amount_step`, and — when more than one
step remains — a nested sub-vault output of `(n_steps - 1) * amount_step`. -/
def SmarterVault.step (cold_storage : Amount → Contract) (hot_storage : Contract)
    (n_steps : Int) (amount_step : Amount) (timeout mature : TimeSpec) :
    TransactionTemplate :=
  let tx := TransactionTemplate.empty
  let tx := tx.set_sequence timeout.time
  let tx := tx.add_output amount_step
      (.undoSend (cold_storage amount_step) hot_storage amount_step mature)
  if n_steps > 1 then
    let sub_amount := (n_steps - 1) * amount_step
    let sub_vault : Contract :=
      .smarterVault cold_storage hot_storage (n_steps - 1) amount_step timeout mature
    tx.add_output sub_amount sub_vault
  else
    tx

/-- `SmarterVault.to_cold` from `smarter_vault.py`: a single output of the
whole value to the cold-storage contract parameterized by that value. -/
def SmarterVault.to_cold (cold_storage : Amount → Contract)
    (n_steps : Int) (amount_step : Amount) : TransactionTemplate :=
  let tx := TransactionTemplate.empty
  let value := n_steps * amount_step
  tx.add_output value (cold_storage value)

/-- `CancellableSubscription.cancel` from `subscription.py`: one output of
the full amount to a `CancelContest` with the same bindings. -/
def CancellableSubscription.cancel (amount : Amount) (recipient : Contract)
    (schedule : List (AbsoluteTimeSpec × Amount)) (return_address : Contract)
    (watchtower_key : PubKey) (return_timeout : RelativeTimeSpec) :
    TransactionTemplate :=
  let tx := TransactionTemplate.empty
  tx.add_output amount
    (.cancelContest amount recipient schedule return_address
      watchtower_key return_timeout)

/-- `CancellableSubscription.claim` from `subscription.py`: reads
`schedule[0]` (in Python an `IndexError` on an empty schedule, here `none`),
applies its delay, pays its amount to the recipient, and — when more than
one schedule entry exists — pays the remainder to a continuation
subscription over the tail of the schedule. -/
def CancellableSubscription.claim (amount : Amount) (recipient : Contract)
    (schedule : List (AbsoluteTimeSpec × Amount)) (return_address : Contract)
    (watchtower_key : PubKey) (return_timeout : RelativeTimeSpec) :
    Option TransactionTemplate :=
  match schedule with
  | [] => none
  | (delay, amt) :: rest =>
    let tx := TransactionTemplate.empty
    let tx := add_timeout tx (.absolute delay)
    let total_amount := amount
    let tx := tx.add_output amt recipient
    if rest.length > 0 then
      let new_amount := total_amount - amt
      some (tx.add_output new_amount
        (.cancellableSubscription new_amount recipient rest return_address
          watchtower_key return_timeout))
    else
      some tx

/-- The loop body of `CancelContest.counterclaim` from `subscription.py`,
with the running `amount_earned` accumulator made explicit: each schedule
entry yields one template paying the cumulative earned amount to the
recipient, plus a refund output of `amount - amount_earned` to the return
address exactly when that difference is truthy (nonzero). -/
def CancelContest.counterclaimGo (amount : Amount) (recipient : Contract)
    (return_address : Contract) (amount_earned : Amount) :
    List (AbsoluteTimeSpec × Amount) → List TransactionTemplate
  | [] => []
  | (timeout, amt) :: rest =>
    let amount_earned := amount_earned + amt
    let amount_refundable := amount - amount_earned
    let tx := TransactionTemplate.empty
    let tx := add_timeout tx (.absolute timeout)
    let tx := tx.add_output amount_earned recipient
    let tx := if amount_refundable ≠ 0
      then tx.add_output amount_refundable return_address
      else tx
    tx :: CancelContest.counterclaimGo amount recipient return_address
      amount_earned rest

/-- `CancelContest.counterclaim` from `subscription.py`: the generator,
materialized as the finite list of templates it yields, starting from
`amount_earned = 0`. -/
def CancelContest.counterclaim (amount : Amount) (recipient : Contract)
    (schedule : List (AbsoluteTimeSpec × Amount)) (return_address : Contract) :
    List TransactionTemplate :=
  CancelContest.counterclaimGo amount recipient return_address 0 schedule

/-- `CancelContest.finish_cancel` from `subscription.py`. -/
def CancelContest.finish_cancel (amount : Amount) (return_address : Contract)
    (return_timeout : RelativeTimeSpec) : TransactionTemplate :=
  let tx := TransactionTemplate.empty
  let tx := tx.set_sequence return_timeout.time
  tx.add_output amount return_address

/-- The schedule built by `auto_pay` in `subscription.py`:
`[(AbsoluteTimeSpec.at_height((t+1)*period), per_time) for t in range(times)]`. -/
def auto_pay_schedule (period : Int) (times : Nat) (per_time : Amount) :
    List (AbsoluteTimeSpec × Amount) :=
  (List.range times).map
    (fun (t : Nat) =>
      (AbsoluteTimeSpec.at_height (((t : Int) + 1) * period), per_time))

/-- `auto_pay` from `subscription.py`: builds the schedule
`[(at_height((t+1)*period), per_time) for t in range(times)]`, binds
`amount = per_time * times`, and constructs the subscription. -/
def auto_pay (period : Int) (times : Nat) (per_time : Amount)
    (recipient : Contract) (return_address : Contract)
    (watchtower_key : PubKey) (return_timeout : RelativeTimeSpec) : Contract :=
  let schedule := auto_pay_schedule period times per_time
  let amount := per_time * (times : Int)
  .cancellableSubscription amount recipient schedule return_address
    watchtower_key return_timeout

/-- `UndoSend.undo` from `undo_send.py`. -/
def UndoSend.undo (from_contract : Contract) (amount : Amount) :
    TransactionTemplate :=
  TransactionTemplate.empty.add_output amount from_contract

/-- The cumulative sum of the amounts of the first `i + 1` schedule entries
(the `amount_earned` accumulator after processing entry `i`). -/
def claimed : List (AbsoluteTimeSpec × Amount) → Nat → Amount
  | [], _ => 0
  | (_, amt) :: _, 0 => amt
  | (_, amt) :: rest, i + 1 => amt + claimed rest i

/-- The sum of all schedule amounts. -/
def scheduleTotal (s : List (AbsoluteTimeSpec × Amount)) : Amount :=
  (s.map Prod.snd).sum

/-- The nested sub-vault carried by a step template: present exactly when
the template has a second output whose target is a `SmarterVault`. -/
def step_sub_vault (tx : TransactionTemplate) : Option Contract :=
  match tx.outputs with
  | [_, (_, c@(Contract.smarterVault _ _ _ _ _ _))] => some c
  | _ => none

/-- Follow the nested sub-vault outputs of successive `step` templates and
count the levels visited until a step template with no nested sub-vault;
`none` when the fuel runs out or a non-vault contract is reached. -/
def follow_steps : Nat → Contract → Option Nat
  | 0, _ => none
  | fuel + 1, .smarterVault cs hs n a t m =>
    match step_sub_vault (SmarterVault.step cs hs n a t m) with
    | none => some 1
    | some sub => (follow_steps fuel sub).map (· + 1)
  | _ + 1, _ => none

/-- Modelled from the spec: a JSON value arriving at the serving boundary. -/
inductive Json where
  | num (n : Int)
  | str (s : String)
  | arr (items : List Json)
  | obj (entries : List (String × Json))

/-- Modelled from the spec: the payments JSON schema — the argument conforms
exactly when it is an array each of whose items conforms to the external
address schema `addressOk`. -/
def payments_schema_ok (addressOk : Json → Bool) : Json → Bool
  | .arr items => items.all addressOk
  | _ => false

/-- `convert` from `payments.py`: validates the argument against the
array-of-address schema (a `SchemaValidationError` when it does not
conform, returning nothing), then maps the external `address.convert`
(modelled by `addressConvert`) over the entries in order. -/
def payments.convert (addressOk : Json → Bool)
    (addressConvert : Json → Amount × Contract) (arg : Json) :
    Except String (List (Amount × Contract)) :=
  match arg with
  | .arr items =>
    if items.all addressOk then .ok (items.map addressConvert)
    else .error "SchemaValidationError"
  | _ => .error "SchemaValidationError"

/-! ## Helper lemmas -/

lemma counterclaimGo_length (a : Amount) (r ra : Contract) :
    ∀ (s : List (AbsoluteTimeSpec × Amount)) (e : Amount),
      (CancelContest.counterclaimGo a r ra e s).length = s.length := by
  intro s
  induction s with
  | nil => intro e; rfl
  | cons p rest ih =>
    intro e
    obtain ⟨t, amt⟩ := p
    simp [CancelContest.counterclaimGo, ih]

lemma counterclaim_length (a : Amount) (r ra : Contract)
    (s : List (AbsoluteTimeSpec × Amount)) :
    (CancelContest.counterclaim a r s ra).length = s.length :=
  counterclaimGo_length a r ra s 0

lemma counterclaimGo_get (a : Amount) (r ra : Contract) :
    ∀ (s : List (AbsoluteTimeSpec × Amount)) (e : Amount) (i : Nat)
      (h : i < (CancelContest.counterclaimGo a r ra e s).length)
      (h2 : i < s.length),
      (CancelContest.counterclaimGo a r ra e s).get ⟨i, h⟩
        = { outputs := (e + claimed s i, r) ::
              (if a - (e + claimed s i) ≠ 0
                then [(a - (e + claimed s i), ra)] else []),
            sequence := none,
            locktime := some (s.get ⟨i, h2⟩).1.time } := by
  intro s
  induction s with
  | nil => intro e i h h2; exact absurd h2 (Nat.not_lt_zero i)
  | cons p rest ih =>
    intro e i h h2
    obtain ⟨t, amt⟩ := p
    cases i with
    | zero =>
      simp only [CancelContest.counterclaimGo, claimed, List.get,
        add_timeout, TransactionTemplate.empty, TransactionTemplate.set_locktime,
        TransactionTemplate.add_output]
      by_cases hz : a - (e + amt) ≠ 0 <;> simp [hz]
    | succ j =>
      have hj : j < (CancelContest.counterclaimGo a r ra (e + amt) rest).length := by
        have := counterclaimGo_length a r ra rest (e + amt)
        simp only [CancelContest.counterclaimGo, List.length_cons] at h
        omega
      have hj2 : j < rest.length := by
        simpa using Nat.lt_of_succ_lt_succ h2
      have step : (CancelContest.counterclaimGo a r ra e ((t, amt) :: rest)).get ⟨j + 1, h⟩
          = (CancelContest.counterclaimGo a r ra (e + amt) rest).get ⟨j, hj⟩ := by
        simp [CancelContest.counterclaimGo]
      rw [step, ih (e + amt) j hj hj2]
      have harr : e + claimed ((t, amt) :: rest) (j + 1) = e + amt + claimed rest j := by
        simp [claimed]; ring
      rw [← harr]
      rfl

lemma counterclaim_get (a : Amount) (r ra : Contract)
    (s : List (AbsoluteTimeSpec × Amount)) (i : Nat)
    (h : i < (CancelContest.counterclaim a r s ra).length) (h2 : i < s.length) :
    (CancelContest.counterclaim a r s ra).get ⟨i, h⟩
      = { outputs := (claimed s i, r) ::
            (if a - claimed s i ≠ 0 then [(a - claimed s i, ra)] else []),
          sequence := none,
          locktime := some (s.get ⟨i, h2⟩).1.time } := by
  have := counterclaimGo_get a r ra s 0 i h h2
  simpa using this

lemma claimed_nonneg (s : List (AbsoluteTimeSpec × Amount))
    (hs : ∀ p ∈ s, 0 ≤ p.2) : ∀ i, 0 ≤ claimed s i := by
  induction s with
  | nil => intro i; simp [claimed]
  | cons p rest ih =>
    intro i
    obtain ⟨t, amt⟩ := p
    have hamt : (0 : Amount) ≤ amt := hs (t, amt) (List.mem_cons_self _ _)
    cases i with
    | zero => simpa [claimed] using hamt
    | succ j =>
      have := ih (fun q hq => hs q (List.mem_cons_of_mem _ hq)) j
      simp only [claimed]
      linarith

lemma claimed_mono_succ (s : List (AbsoluteTimeSpec × Amount))
    (hs : ∀ p ∈ s, 0 ≤ p.2) : ∀ i, claimed s i ≤ claimed s (i + 1) := by
  induction s with
  | nil => intro i; simp [claimed]
  | cons p rest ih =>
    intro i
    obtain ⟨t, amt⟩ := p
    cases i with
    | zero =>
      have := claimed_nonneg rest (fun q hq => hs q (List.mem_cons_of_mem _ hq)) 0
      simp only [claimed]
      linarith
    | succ j =>
      have := ih (fun q hq => hs q (List.mem_cons_of_mem _ hq)) j
      simp only [claimed]
      linarith

lemma claimed_mono (s : List (AbsoluteTimeSpec × Amount))
    (hs : ∀ p ∈ s, 0 ≤ p.2) {i j : Nat} (hij : i ≤ j) :
    claimed s i ≤ claimed s j := by
  induction j with
  | zero => simp_all
  | succ k ih =>
    rcases Nat.lt_or_ge i (k + 1) with hlt | hge
    · exact le_trans (ih (Nat.lt_succ_iff.mp hlt)) (claimed_mono_succ s hs k)
    · have : i = k + 1 := le_antisymm hij hge
      subst this
      exact le_refl _


lemma step_of_base (cs : Amount → Contract) (hsc : Contract) (a : Amount)
    (t m : TimeSpec) {n : Int} (hn : ¬ 1 < n) :
    SmarterVault.step cs hsc n a t m
      = { outputs := [(a, .undoSend (cs a) hsc a m)],
          sequence := some t.time, locktime := none } := by
  simp [SmarterVault.step, hn, TransactionTemplate.empty,
    TransactionTemplate.set_sequence, TransactionTemplate.add_output]

lemma step_of_gt (cs : Amount → Contract) (hsc : Contract) (a : Amount)
    (t m : TimeSpec) {n : Int} (hn : 1 < n) :
    SmarterVault.step cs hsc n a t m
      = { outputs := [(a, .undoSend (cs a) hsc a m),
            ((n - 1) * a, .smarterVault cs hsc (n - 1) a t m)],
          sequence := some t.time, locktime := none } := by
  simp [SmarterVault.step, hn, TransactionTemplate.empty,
    TransactionTemplate.set_sequence, TransactionTemplate.add_output]

lemma step_sub_vault_of_base (cs : Amount → Contract) (hsc : Contract)
    (a : Amount) (t m : TimeSpec) {n : Int} (hn : ¬ 1 < n) :
    step_sub_vault (SmarterVault.step cs hsc n a t m) = none := by
  rw [step_of_base cs hsc a t m hn]
  rfl

lemma step_sub_vault_of_gt (cs : Amount → Contract) (hsc : Contract)
    (a : Amount) (t m : TimeSpec) {n : Int} (hn : 1 < n) :
    step_sub_vault (SmarterVault.step cs hsc n a t m)
      = some (.smarterVault cs hsc (n - 1) a t m) := by
  rw [step_of_gt cs hsc a t m hn]
  rfl

lemma follow_steps_vault (cs : Amount → Contract) (hsc : Contract)
    (a : Amount) (t m : TimeSpec) :
    ∀ N : Nat, 1 ≤ N →
      follow_steps N (.smarterVault cs hsc (N : Int) a t m) = some N := by
  intro N
  induction N with
  | zero => intro h; exact absurd h (by decide)
  | succ k ih =>
    intro _
    rcases Nat.eq_zero_or_pos k with hk | hk
    · subst hk
      simp only [follow_steps, Nat.cast_one]
      rw [step_sub_vault_of_base cs hsc a t m (by decide)]
    · have hgt : (1 : Int) < ((k + 1 : Nat) : Int) := by
        push_cast; omega
      simp only [follow_steps]
      rw [step_sub_vault_of_gt cs hsc a t m hgt]
      have hcast : ((k + 1 : Nat) : Int) - 1 = (k : Int) := by push_cast; ring
      rw [hcast]
      show Option.map (fun x => x + 1)
        (follow_steps k (.smarterVault cs hsc (k : Int) a t m)) = some (k + 1)
      rw [ih hk]
      rfl

lemma claimed_const (v : Amount) :
    ∀ (l : List (AbsoluteTimeSpec × Amount)), (∀ q ∈ l, q.2 = v) →
      ∀ i, claimed l i = v * ((min (i + 1) l.length : Nat) : Int) := by
  intro l
  induction l with
  | nil => intro _ i; simp [claimed]
  | cons p rest ih =>
    intro hl i
    obtain ⟨t, amt⟩ := p
    have hv : amt = v := hl (t, amt) (List.mem_cons_self _ _)
    subst hv
    cases i with
    | zero =>
      have h1 : min 1 (rest.length + 1) = 1 := by omega
      simp [claimed, h1]
    | succ j =>
      have hrest := ih (fun q hq => hl q (List.mem_cons_of_mem _ hq)) j
      have hmin : min (j + 1 + 1) (rest.length + 1) = min (j + 1) rest.length + 1 := by
        omega
      simp only [claimed, hrest, List.length_cons, hmin]
      push_cast
      ring

lemma scheduleTotal_const (v : Amount) :
    ∀ (l : List (AbsoluteTimeSpec × Amount)), (∀ q ∈ l, q.2 = v) →
      scheduleTotal l = v * (l.length : Int) := by
  intro l
  induction l with
  | nil => intro _; simp [scheduleTotal]
  | cons p rest ih =>
    intro hl
    obtain ⟨t, amt⟩ := p
    have hv : amt = v := hl (t, amt) (List.mem_cons_self _ _)
    subst hv
    have hrest := ih (fun q hq => hl q (List.mem_cons_of_mem _ hq))
    simp only [scheduleTotal, List.map_cons, List.sum_cons, List.length_cons] at *
    rw [hrest]
    push_cast
    ring

lemma auto_pay_schedule_snd (p : Int) (n : Nat) (v : Amount) :
    ∀ q ∈ auto_pay_schedule p n v, q.2 = v := by
  intro q hq
  simp only [auto_pay_schedule, List.mem_map] at hq
  obtain ⟨t, _, rfl⟩ := hq
  rfl

lemma auto_pay_schedule_length (p : Int) (n : Nat) (v : Amount) :
    (auto_pay_schedule p n v).length = n := by
  unfold auto_pay_schedule
  rw [List.length_map, List.length_range]

lemma auto_pay_schedule_get (p : Int) (n : Nat) (v : Amount)
    (t : Nat) (h : t < (auto_pay_schedule p n v).length) :
    (auto_pay_schedule p n v).get ⟨t, h⟩
      = (AbsoluteTimeSpec.at_height (((t : Int) + 1) * p), v) := by
  unfold auto_pay_schedule
  simp only [List.get_eq_getElem, List.getElem_map, List.getElem_range]

/-! ## Claim theorems -/

/-- C1 (amended): drain-path conservation.  For `n_steps ≥ 1` the vault's
`step` template's outputs sum to `n_steps * amount_step` and `to_cold` is a
single output of `n_steps * amount_step`; the subscription's `cancel`
template always sums to the bound amount; `claim` sums to the bound amount
for every schedule of length ≥ 2, while for a single-entry schedule its sum
is that entry's amount (equal to the bound amount only when the two
coincide). -/
theorem c1_drain_conservation
    (cold_storage : Amount → Contract) (hot_storage : Contract)
    (n_steps : Int) (amount_step : Amount) (timeout mature : TimeSpec)
    (amount : Amount) (recipient : Contract)
    (schedule : List (AbsoluteTimeSpec × Amount)) (return_address : Contract)
    (watchtower_key : PubKey) (return_timeout : RelativeTimeSpec) :
    (1 ≤ n_steps →
      (SmarterVault.step cold_storage hot_storage n_steps amount_step timeout
        mature).outputTotal = n_steps * amount_step)
  ∧ (SmarterVault.to_cold cold_storage n_steps amount_step).outputs
      = [(n_steps * amount_step, cold_storage (n_steps * amount_step))]
  ∧ (CancellableSubscription.cancel amount recipient schedule return_address
      watchtower_key return_timeout).outputTotal = amount
  ∧ (2 ≤ schedule.length →
      (CancellableSubscription.claim amount recipient schedule return_address
        watchtower_key return_timeout).map TransactionTemplate.outputTotal
      = some amount)
  ∧ (∀ (d : AbsoluteTimeSpec) (a0 : Amount),
      (CancellableSubscription.claim amount recipient [(d, a0)] return_address
        watchtower_key return_timeout).map TransactionTemplate.outputTotal
      = some a0) := by
  refine ⟨?_, ?_, ?_, ?_, ?_⟩
  · intro hn
    by_cases h : 1 < n_steps
    · rw [step_of_gt cold_storage hot_storage amount_step timeout mature h]
      simp [TransactionTemplate.outputTotal]
      ring
    · have h1 : n_steps = 1 := le_antisymm (not_lt.mp h) hn
      subst h1
      rw [step_of_base cold_storage hot_storage amount_step timeout mature h]
      simp [TransactionTemplate.outputTotal]
  · rfl
  · simp [CancellableSubscription.cancel, TransactionTemplate.empty,
      TransactionTemplate.add_output, TransactionTemplate.outputTotal]
  · intro hs
    obtain ⟨⟨d, a0⟩, rest, rfl⟩ : ∃ p rest, schedule = p :: rest := by
      cases schedule with
      | nil => simp at hs
      | cons p s1 => exact ⟨p, s1, rfl⟩
    have hrest : 0 < rest.length := by
      simp only [List.length_cons] at hs
      omega
    simp [CancellableSubscription.claim, add_timeout,
      TransactionTemplate.empty, TransactionTemplate.set_locktime,
      TransactionTemplate.add_output, TransactionTemplate.outputTotal, hrest]
  · intro d a0
    simp [CancellableSubscription.claim, add_timeout,
      TransactionTemplate.empty, TransactionTemplate.set_locktime,
      TransactionTemplate.add_output, TransactionTemplate.outputTotal]

/-- C1 counterexample: the binding `amount = 100` with the single-entry
schedule `[(h, 30)]` — the `claim` template's outputs sum to 30, not to the
bound amount 100, so the claim path does not drain its input for every
binding. -/
theorem c1_drain_conservation_cex :
    (CancellableSubscription.claim 100 (.base 0) [(⟨1⟩, 30)] (.base 1) 0
      ⟨5⟩).map TransactionTemplate.outputTotal = some 30
  ∧ (30 : Amount) ≠ 100 :=
  ⟨rfl, by decide⟩

/-- C1 witness: the amended statement evaluated at a concrete binding. -/
theorem c1_drain_conservation_witness :
    (1 : Int) ≤ 2
  ∧ 2 ≤ ([((⟨1⟩ : AbsoluteTimeSpec), (40 : Amount)),
          (⟨2⟩, 60)] : List (AbsoluteTimeSpec × Amount)).length
  ∧ ((SmarterVault.step (fun _ => .base 7) (.base 1) 2 100 (.relative ⟨9⟩)
        (.relative ⟨4⟩)).outputTotal = 2 * 100
    ∧ (SmarterVault.to_cold (fun _ => .base 7) 2 100).outputs
        = [(2 * 100, Contract.base 7)]
    ∧ (CancellableSubscription.cancel 100 (.base 2)
        [(⟨1⟩, 40), (⟨2⟩, 60)] (.base 3) 0 ⟨5⟩).outputTotal = 100
    ∧ (CancellableSubscription.claim 100 (.base 2)
        [(⟨1⟩, 40), (⟨2⟩, 60)] (.base 3) 0 ⟨5⟩).map
        TransactionTemplate.outputTotal = some 100
    ∧ (∀ (d : AbsoluteTimeSpec) (a0 : Amount),
        (CancellableSubscription.claim 100 (.base 2) [(d, a0)] (.base 3) 0
          ⟨5⟩).map TransactionTemplate.outputTotal = some a0)) := by
  have h := c1_drain_conservation (fun _ => .base 7) (.base 1) 2 100
    (.relative ⟨9⟩) (.relative ⟨4⟩) 100 (.base 2) [(⟨1⟩, 40), (⟨2⟩, 60)]
    (.base 3) 0 ⟨5⟩
  exact ⟨by decide, by decide, h.1 (by decide), h.2.1, h.2.2.1,
    h.2.2.2.1 (by decide), h.2.2.2.2⟩

/-- C3: the vault scenario with `n_steps = 3`, `amount_step = 100` — `step`
yields the output of 100 to `UndoSend(from_contract = cold_storage 100,
to_key = hot_storage, timeout = mature, amount = 100)` plus the nested
sub-vault output of 200 with `n_steps = 2` and otherwise identical fields,
and `to_cold` yields the single output of 300 to `cold_storage 300`. -/
theorem c3_vault_scenario (cold_storage : Amount → Contract)
    (hot_storage : Contract) (timeout mature : TimeSpec) :
    SmarterVault.step cold_storage hot_storage 3 100 timeout mature
      = { outputs := [(100, .undoSend (cold_storage 100) hot_storage 100 mature),
            (200, .smarterVault cold_storage hot_storage 2 100 timeout mature)],
          sequence := some timeout.time, locktime := none }
  ∧ SmarterVault.to_cold cold_storage 3 100
      = { outputs := [(300, cold_storage 300)], sequence := none,
          locktime := none } := by
  constructor
  · rw [step_of_gt cold_storage hot_storage 100 timeout mature (by norm_num)]
    norm_num
  · unfold SmarterVault.to_cold
    norm_num [TransactionTemplate.empty, TransactionTemplate.add_output]

/-- C4: the subscription scenario with schedule `[(h1, 50), (h2, 50)]` and
`amount = 100` — `claim` yields 50 to the recipient and 50 to a
continuation subscription bound with `amount = 50`, `schedule = [(h2, 50)]`;
the continuation's own `claim` yields a single output of 50 to the
recipient and no further continuation, and 50 + 50 = 100. -/
theorem c4_subscription_scenario (h1 h2 : AbsoluteTimeSpec)
    (recipient return_address : Contract) (watchtower_key : PubKey)
    (return_timeout : RelativeTimeSpec) :
    CancellableSubscription.claim 100 recipient [(h1, 50), (h2, 50)]
        return_address watchtower_key return_timeout
      = some { outputs := [(50, recipient),
                 (50, Contract.cancellableSubscription 50 recipient [(h2, 50)] return_address watchtower_key return_timeout)],
               sequence := none, locktime := some h1.time }
  ∧ CancellableSubscription.claim 50 recipient [(h2, 50)] return_address
        watchtower_key return_timeout
      = some { outputs := [(50, recipient)], sequence := none,
               locktime := some h2.time }
  ∧ (50 : Amount) + 50 = 100 :=
  ⟨rfl, rfl, by norm_num⟩

/-- C6: determinism and restartability — each path factory is a function of
the bound fields alone, so a second invocation with the same bindings
yields exactly the same templates (and re-running the materialized
`counterclaim` generator yields the same finite sequence, of one template
per schedule entry). -/
theorem c6_determinism (cold_storage : Amount → Contract)
    (hot_storage : Contract) (n_steps : Int) (amount_step : Amount)
    (timeout mature : TimeSpec) (amount : Amount) (recipient : Contract)
    (schedule : List (AbsoluteTimeSpec × Amount)) (return_address : Contract)
    (watchtower_key : PubKey) (return_timeout : RelativeTimeSpec) :
    CancelContest.counterclaim amount recipient schedule return_address
      = CancelContest.counterclaim amount recipient schedule return_address
  ∧ SmarterVault.step cold_storage hot_storage n_steps amount_step timeout
        mature
      = SmarterVault.step cold_storage hot_storage n_steps amount_step timeout
        mature
  ∧ CancellableSubscription.claim amount recipient schedule return_address
        watchtower_key return_timeout
      = CancellableSubscription.claim amount recipient schedule return_address
        watchtower_key return_timeout
  ∧ (CancelContest.counterclaim amount recipient schedule
        return_address).length = schedule.length :=
  ⟨rfl, rfl, rfl, counterclaim_length amount recipient return_address schedule⟩

/-- C7: TimeSpec encoding — `add_timeout` applies a relative delay via
`set_sequence` (leaving `locktime` untouched) and an absolute delay via
`set_locktime` (leaving `sequence` untouched), so it never sets both
fields for a single delay. -/
theorem c7_timeout_encoding (tx : TransactionTemplate)
    (r : RelativeTimeSpec) (a : AbsoluteTimeSpec) :
    (add_timeout tx (.relative r) = tx.set_sequence r.time
      ∧ (add_timeout tx (.relative r)).locktime = tx.locktime)
  ∧ (add_timeout tx (.absolute a) = tx.set_locktime a.time
      ∧ (add_timeout tx (.absolute a)).sequence = tx.sequence) :=
  ⟨⟨rfl, rfl⟩, ⟨rfl, rfl⟩⟩

/-- C2: generator laws for `counterclaim` — with a schedule of length
K ≥ 1 the generator yields exactly K templates; template `i` pays the
cumulative sum of the first `i + 1` schedule amounts to the recipient,
accompanied by a refund output of the bound amount minus that cumulative
sum exactly when the difference is nonzero; the cumulative claimed amounts
are non-decreasing (schedule amounts being non-negative `Amount` values);
and once the claimed amount equals the bound amount the refund output is
omitted entirely rather than emitted with zero value. -/
theorem c2_generator_laws (amount : Amount) (recipient : Contract)
    (s : List (AbsoluteTimeSpec × Amount)) (return_address : Contract)
    (hK : 1 ≤ s.length) :
    (CancelContest.counterclaim amount recipient s return_address).length
      = s.length
  ∧ (∀ (i : Nat)
      (h : i < (CancelContest.counterclaim amount recipient s
        return_address).length)
      (h2 : i < s.length),
      (CancelContest.counterclaim amount recipient s return_address).get ⟨i, h⟩
        = { outputs := (claimed s i, recipient) ::
              (if amount - claimed s i ≠ 0
                then [(amount - claimed s i, return_address)] else []),
            sequence := none,
            locktime := some (s.get ⟨i, h2⟩).1.time })
  ∧ ((∀ p ∈ s, 0 ≤ p.2) → ∀ i j : Nat, i ≤ j → claimed s i ≤ claimed s j)
  ∧ (∀ (i : Nat)
      (h : i < (CancelContest.counterclaim amount recipient s
        return_address).length),
      claimed s i = amount →
      ((CancelContest.counterclaim amount recipient s return_address).get
        ⟨i, h⟩).outputs = [(claimed s i, recipient)]) := by
  refine ⟨counterclaim_length amount recipient return_address s,
    fun i h h2 => counterclaim_get amount recipient return_address s i h h2,
    fun hp i j hij => claimed_mono s hp hij, ?_⟩
  intro i h heq
  have h2 : i < s.length := by
    rw [counterclaim_length] at h
    exact h
  rw [counterclaim_get amount recipient return_address s i h h2]
  simp [heq]

/-- C2 witness: the scenario with schedule `[(h1, 50), (h2, 50)]` and
`amount = 100` — two templates, the first with recipient amount 50 and
refund 50, the second with recipient amount 100 and the refund output
omitted. -/
theorem c2_generator_laws_witness :
    1 ≤ ([((⟨1⟩ : AbsoluteTimeSpec), (50 : Amount)),
          (⟨2⟩, 50)] : List (AbsoluteTimeSpec × Amount)).length
  ∧ ((CancelContest.counterclaim 100 (.base 0) [(⟨1⟩, 50), (⟨2⟩, 50)]
        (.base 1)).length = ([((⟨1⟩ : AbsoluteTimeSpec), (50 : Amount)),
          (⟨2⟩, 50)] : List (AbsoluteTimeSpec × Amount)).length
    ∧ (∀ (i : Nat)
        (h : i < (CancelContest.counterclaim 100 (.base 0)
          [(⟨1⟩, 50), (⟨2⟩, 50)] (.base 1)).length)
        (h2 : i < ([((⟨1⟩ : AbsoluteTimeSpec), (50 : Amount)),
          (⟨2⟩, 50)] : List (AbsoluteTimeSpec × Amount)).length),
        (CancelContest.counterclaim 100 (.base 0) [(⟨1⟩, 50), (⟨2⟩, 50)]
          (.base 1)).get ⟨i, h⟩
          = { outputs := (claimed [(⟨1⟩, 50), (⟨2⟩, 50)] i, Contract.base 0) ::
                (if (100 : Amount) - claimed [(⟨1⟩, 50), (⟨2⟩, 50)] i ≠ 0
                  then [((100 : Amount) - claimed [(⟨1⟩, 50), (⟨2⟩, 50)] i,
                    Contract.base 1)] else []),
              sequence := none,
              locktime :=
                some (([((⟨1⟩ : AbsoluteTimeSpec), (50 : Amount)),
                  (⟨2⟩, 50)] : List (AbsoluteTimeSpec × Amount)).get
                    ⟨i, h2⟩).1.time })
    ∧ ((∀ p ∈ ([((⟨1⟩ : AbsoluteTimeSpec), (50 : Amount)),
          (⟨2⟩, 50)] : List (AbsoluteTimeSpec × Amount)), 0 ≤ p.2) →
        ∀ i j : Nat, i ≤ j → claimed [(⟨1⟩, 50), (⟨2⟩, 50)] i
          ≤ claimed [(⟨1⟩, 50), (⟨2⟩, 50)] j)
    ∧ (∀ (i : Nat)
        (h : i < (CancelContest.counterclaim 100 (.base 0)
          [(⟨1⟩, 50), (⟨2⟩, 50)] (.base 1)).length),
        claimed [(⟨1⟩, 50), (⟨2⟩, 50)] i = 100 →
        ((CancelContest.counterclaim 100 (.base 0) [(⟨1⟩, 50), (⟨2⟩, 50)]
          (.base 1)).get ⟨i, h⟩).outputs
          = [(claimed [(⟨1⟩, 50), (⟨2⟩, 50)] i, Contract.base 0)]))
  ∧ CancelContest.counterclaim 100 (.base 0) [(⟨1⟩, 50), (⟨2⟩, 50)] (.base 1)
      = [{ outputs := [(50, Contract.base 0), (50, Contract.base 1)],
           sequence := none, locktime := some 1 },
         { outputs := [(100, Contract.base 0)],
           sequence := none, locktime := some 2 }] :=
  ⟨by decide,
    c2_generator_laws 100 (.base 0) [(⟨1⟩, 50), (⟨2⟩, 50)] (.base 1)
      (by decide),
    rfl⟩

/-- C5: recursion termination — following the nested sub-vault outputs of
successive `step` templates from a vault with `n_steps = N ≥ 1` terminates
after exactly `N` levels; each level's sub-vault carries `n_steps`
decremented by one, and at `n_steps = 1` the `step` template has only the
`UndoSend` output and no nested sub-vault. -/
theorem c5_recursion_termination (cold_storage : Amount → Contract)
    (hot_storage : Contract) (amount_step : Amount) (timeout mature : TimeSpec)
    (N : Nat) (hN : 1 ≤ N) :
    follow_steps N (.smarterVault cold_storage hot_storage (N : Int)
        amount_step timeout mature) = some N
  ∧ (∀ n : Int, 1 < n →
      step_sub_vault (SmarterVault.step cold_storage hot_storage n
          amount_step timeout mature)
        = some (.smarterVault cold_storage hot_storage (n - 1) amount_step
            timeout mature))
  ∧ (SmarterVault.step cold_storage hot_storage 1 amount_step timeout
        mature).outputs
      = [(amount_step, .undoSend (cold_storage amount_step) hot_storage
            amount_step mature)]
  ∧ step_sub_vault (SmarterVault.step cold_storage hot_storage 1 amount_step
        timeout mature) = none := by
  refine ⟨follow_steps_vault cold_storage hot_storage amount_step timeout
      mature N hN,
    fun n hn => step_sub_vault_of_gt cold_storage hot_storage amount_step
      timeout mature hn, ?_,
    step_sub_vault_of_base cold_storage hot_storage amount_step timeout
      mature (by norm_num)⟩
  rw [step_of_base cold_storage hot_storage amount_step timeout mature
    (by norm_num)]

/-- C5 witness: the statement evaluated for a three-step vault. -/
theorem c5_recursion_termination_witness :
    1 ≤ 3
  ∧ (follow_steps 3 (.smarterVault (fun _ => .base 7) (.base 1) (3 : Int)
        100 (.relative ⟨9⟩) (.relative ⟨4⟩)) = some 3
    ∧ (∀ n : Int, 1 < n →
        step_sub_vault (SmarterVault.step (fun _ => .base 7) (.base 1) n 100
            (.relative ⟨9⟩) (.relative ⟨4⟩))
          = some (.smarterVault (fun _ => .base 7) (.base 1) (n - 1) 100
              (.relative ⟨9⟩) (.relative ⟨4⟩)))
    ∧ (SmarterVault.step (fun _ => .base 7) (.base 1) 1 100 (.relative ⟨9⟩)
          (.relative ⟨4⟩)).outputs
        = [(100, .undoSend (Contract.base 7) (.base 1) 100 (.relative ⟨4⟩))]
    ∧ step_sub_vault (SmarterVault.step (fun _ => .base 7) (.base 1) 1 100
          (.relative ⟨9⟩) (.relative ⟨4⟩)) = none) :=
  ⟨by decide,
    c5_recursion_termination (fun _ => .base 7) (.base 1) 100 (.relative ⟨9⟩)
      (.relative ⟨4⟩) 3 (by decide)⟩

/-- C9: refund truthiness edge — whenever the cumulative schedule amount
through entry `i` exceeds the bound amount, `counterclaim`'s template `i`
carries a negative-amount refund output to the return address (the Python
truthiness test `if amount_refundable:` lets negatives through), and the
generator still completes, yielding one template per schedule entry. -/
theorem c9_negative_refund (amount : Amount) (recipient : Contract)
    (s : List (AbsoluteTimeSpec × Amount)) (return_address : Contract)
    (i : Nat)
    (h : i < (CancelContest.counterclaim amount recipient s
      return_address).length)
    (hgt : amount < claimed s i) :
    ((CancelContest.counterclaim amount recipient s return_address).get
        ⟨i, h⟩).outputs
      = [(claimed s i, recipient), (amount - claimed s i, return_address)]
  ∧ amount - claimed s i < 0
  ∧ (CancelContest.counterclaim amount recipient s return_address).length
      = s.length := by
  have h2 : i < s.length := by
    rw [counterclaim_length] at h
    exact h
  have hneg : amount - claimed s i < 0 := by linarith
  have hne : amount - claimed s i ≠ 0 := ne_of_lt hneg
  refine ⟨?_, hneg, counterclaim_length amount recipient return_address s⟩
  rw [counterclaim_get amount recipient return_address s i h h2]
  simp [hne]

/-- C9 witness: `amount = 100` with schedule `[(h, 150)]` — the single
template pays 150 to the recipient and -50 to the return address. -/
theorem c9_negative_refund_witness :
    0 < (CancelContest.counterclaim 100 (.base 0) [(⟨1⟩, 150)]
      (.base 1)).length
  ∧ (100 : Amount) < claimed [(⟨1⟩, 150)] 0
  ∧ (((CancelContest.counterclaim 100 (.base 0) [(⟨1⟩, 150)] (.base 1)).get
        ⟨0, by decide⟩).outputs
      = [(claimed [(⟨1⟩, 150)] 0, Contract.base 0),
         ((100 : Amount) - claimed [(⟨1⟩, 150)] 0, Contract.base 1)]
    ∧ (100 : Amount) - claimed [(⟨1⟩, 150)] 0 < 0
    ∧ (CancelContest.counterclaim 100 (.base 0) [(⟨1⟩, 150)]
        (.base 1)).length = ([((⟨1⟩ : AbsoluteTimeSpec), (150 : Amount))] :
          List (AbsoluteTimeSpec × Amount)).length) :=
  ⟨by decide, by decide,
    c9_negative_refund 100 (.base 0) [(⟨1⟩, 150)] (.base 1) 0 (by decide)
      (by decide)⟩

lemma claim_single (amount a0 : Amount) (d : AbsoluteTimeSpec)
    (r ra : Contract) (k : PubKey) (rt : RelativeTimeSpec) :
    CancellableSubscription.claim amount r [(d, a0)] ra k rt
      = some { outputs := [(a0, r)], sequence := none,
               locktime := some d.time } :=
  rfl

lemma claim_cons (amount a0 : Amount) (d : AbsoluteTimeSpec)
    (rest : List (AbsoluteTimeSpec × Amount)) (r ra : Contract) (k : PubKey)
    (rt : RelativeTimeSpec) (hrest : 0 < rest.length) :
    CancellableSubscription.claim amount r ((d, a0) :: rest) ra k rt
      = some { outputs := [(a0, r),
                 (amount - a0, Contract.cancellableSubscription (amount - a0) r rest ra k rt)],
               sequence := none, locktime := some d.time } := by
  simp [CancellableSubscription.claim, add_timeout, TransactionTemplate.empty,
    TransactionTemplate.set_locktime, TransactionTemplate.add_output, hrest]

/-- C8: payment-list boundary — `convert` validates its argument against
the array-of-address JSON schema first (yielding a validation error and no
result when it does not conform) and otherwise returns the element-wise
conversion of the entries, preserving order and length.  The address
schema and the per-entry converter are external collaborators, passed as
parameters. -/
theorem c8_payment_boundary (addressOk : Json → Bool)
    (addressConvert : Json → Amount × Contract) (arg : Json) :
    (payments_schema_ok addressOk arg = false →
      payments.convert addressOk addressConvert arg
        = .error "SchemaValidationError")
  ∧ (payments_schema_ok addressOk arg = true →
      ∃ items, arg = Json.arr items
        ∧ payments.convert addressOk addressConvert arg
            = .ok (items.map addressConvert)
        ∧ (items.map addressConvert).length = items.length) := by
  constructor
  · intro hfail
    cases arg with
    | arr items =>
      simp only [payments_schema_ok] at hfail
      simp [payments.convert, hfail]
    | num n => rfl
    | str s => rfl
    | obj entries => rfl
  · intro hok
    cases arg with
    | arr items =>
      simp only [payments_schema_ok] at hok
      exact ⟨items, rfl, by simp [payments.convert, hok],
        List.length_map _ _⟩
    | num n => simp [payments_schema_ok] at hok
    | str s => simp [payments_schema_ok] at hok
    | obj entries => simp [payments_schema_ok] at hok

/-- An address-schema check used to instantiate the boundary theorem:
accepts numeric entries. -/
def wOk : Json → Bool
  | .num _ => true
  | _ => false

/-- A per-entry converter used to instantiate the boundary theorem. -/
def wConv : Json → Amount × Contract
  | .num n => (n, Contract.base 0)
  | _ => (0, Contract.base 0)

/-- C8 witness: a conforming two-entry payment list converts to the
element-wise list of pairs. -/
theorem c8_payment_boundary_witness :
    payments_schema_ok wOk (Json.arr [Json.num 5, Json.num 7]) = true
  ∧ (∃ items, Json.arr [Json.num 5, Json.num 7] = Json.arr items
      ∧ payments.convert wOk wConv (Json.arr [Json.num 5, Json.num 7])
          = .ok (items.map wConv)
      ∧ (items.map wConv).length = items.length) :=
  ⟨rfl, (c8_payment_boundary wOk wConv (Json.arr [Json.num 5, Json.num 7])).2
    rfl⟩

/-- C10: `auto_pay` builds the subscription with a schedule of exactly
`times` entries, entry `t` being `(at_height((t+1)*period), per_time)`, and
binds `amount = per_time * times`, which equals the sum of the schedule
amounts; consequently (bound `Amount` values being non-negative) every
refundable amount computed in `counterclaim` over these bindings and every
output amount computed in `claim` is non-negative. -/
theorem c10_auto_pay (period : Int) (times : Nat) (per_time : Amount)
    (recipient return_address : Contract) (watchtower_key : PubKey)
    (return_timeout : RelativeTimeSpec) (hv : 0 ≤ per_time) :
    auto_pay period times per_time recipient return_address watchtower_key
        return_timeout
      = .cancellableSubscription (per_time * (times : Int)) recipient
          (auto_pay_schedule period times per_time) return_address
          watchtower_key return_timeout
  ∧ (auto_pay_schedule period times per_time).length = times
  ∧ (∀ (t : Nat) (h : t < (auto_pay_schedule period times per_time).length),
      (auto_pay_schedule period times per_time).get ⟨t, h⟩
        = (AbsoluteTimeSpec.at_height (((t : Int) + 1) * period), per_time))
  ∧ scheduleTotal (auto_pay_schedule period times per_time)
      = per_time * (times : Int)
  ∧ (∀ i : Nat, 0 ≤ per_time * (times : Int)
      - claimed (auto_pay_schedule period times per_time) i)
  ∧ (∀ tx, CancellableSubscription.claim (per_time * (times : Int)) recipient
        (auto_pay_schedule period times per_time) return_address
        watchtower_key return_timeout = some tx →
      ∀ p ∈ tx.outputs, 0 ≤ p.1) := by
  refine ⟨rfl, auto_pay_schedule_length period times per_time,
    fun t h => auto_pay_schedule_get period times per_time t h, ?_, ?_, ?_⟩
  · rw [scheduleTotal_const per_time _
      (auto_pay_schedule_snd period times per_time),
      auto_pay_schedule_length]
  · intro i
    rw [claimed_const per_time _ (auto_pay_schedule_snd period times per_time)
      i, auto_pay_schedule_length]
    have hm : ((min (i + 1) times : Nat) : Int) ≤ (times : Int) := by
      exact_mod_cast Nat.min_le_right (i + 1) times
    nlinarith
  · intro tx htx p hp
    cases hsched : auto_pay_schedule period times per_time with
    | nil =>
      rw [hsched] at htx
      simp [CancellableSubscription.claim] at htx
    | cons e rest =>
      obtain ⟨d0, a0⟩ := e
      have ha0 : a0 = per_time := by
        have hmem := auto_pay_schedule_snd period times per_time (d0, a0)
          (by rw [hsched]; exact List.mem_cons_self _ _)
        simpa using hmem
      have htimes : rest.length + 1 = times := by
        have hlen := auto_pay_schedule_length period times per_time
        rw [hsched] at hlen
        simpa using hlen
      rcases Nat.eq_zero_or_pos rest.length with hr | hr
      · obtain rfl : rest = [] := List.length_eq_zero.mp hr
        rw [hsched, claim_single] at htx
        obtain rfl := Option.some_inj.mp htx
        cases hp with
        | head =>
          show (0 : Amount) ≤ a0
          rw [ha0]
          exact hv
        | tail _ hp2 => exact absurd hp2 (List.not_mem_nil p)
      · rw [hsched, claim_cons _ _ _ _ _ _ _ _ hr] at htx
        obtain rfl := Option.some_inj.mp htx
        have h1 : (1 : Int) ≤ (times : Int) := by
          have h1n : 1 ≤ times := by omega
          exact_mod_cast h1n
        cases hp with
        | head =>
          show (0 : Amount) ≤ a0
          rw [ha0]
          exact hv
        | tail _ hp2 =>
          cases hp2 with
          | head =>
            show (0 : Amount) ≤ per_time * (times : Int) - a0
            rw [ha0]
            nlinarith [mul_nonneg hv (sub_nonneg.mpr h1)]
          | tail _ hp3 => exact absurd hp3 (List.not_mem_nil p)

/-- C10 witness: `auto_pay` with `period = 10`, `times = 2`,
`per_time = 5`. -/
theorem c10_auto_pay_witness :
    (0 : Amount) ≤ 5
  ∧ (auto_pay 10 2 5 (.base 0) (.base 1) 0 ⟨3⟩
      = .cancellableSubscription ((5 : Amount) * ((2 : Nat) : Int)) (.base 0)
          (auto_pay_schedule 10 2 5) (.base 1) 0 ⟨3⟩
    ∧ (auto_pay_schedule 10 2 5).length = 2
    ∧ (∀ (t : Nat) (h : t < (auto_pay_schedule 10 2 5).length),
        (auto_pay_schedule 10 2 5).get ⟨t, h⟩
          = (AbsoluteTimeSpec.at_height (((t : Int) + 1) * 10), 5))
    ∧ scheduleTotal (auto_pay_schedule 10 2 5) = (5 : Amount) * ((2 : Nat) : Int)
    ∧ (∀ i : Nat, 0 ≤ (5 : Amount) * ((2 : Nat) : Int)
        - claimed (auto_pay_schedule 10 2 5) i)
    ∧ (∀ tx, CancellableSubscription.claim ((5 : Amount) * ((2 : Nat) : Int))
          (.base 0) (auto_pay_schedule 10 2 5) (.base 1) 0 ⟨3⟩ = some tx →
        ∀ p ∈ tx.outputs, 0 ≤ p.1)) :=
  ⟨by decide, c10_auto_pay 10 2 5 (.base 0) (.base 1) 0 ⟨3⟩ (by decide)⟩
